import Mathlib

/-!
Verification development for the `primes` load-generator client.

The Lean definitions below are shallow embeddings of the Python sources under
`src/primes/`.  Conventions used throughout:

* Python floats are modelled as `ℚ` where only ordered-field arithmetic and
  comparisons occur, and as `ℝ` where transcendental functions (`math.sin`,
  `math.pi`) or real modulus are involved.  IEEE special values (NaN, inf)
  are outside the modelled fragment; `math.isfinite` checks are therefore
  vacuously true in the model.
* Python `None` / optional values become `Option`.
* Mutable dataclasses become immutable structures; a mutating method becomes a
  function returning the updated structure.
* Wall-clock timestamps are abstracted as `ℕ` tokens (their values are never
  computed with, only stored).
-/

namespace Primes

/-! ## Run lifecycle data model (src/primes/api/test_executor.py) -/

/-- The six run statuses of `RunState.status`. -/
inductive Status where
  | pending
  | running
  | stopping
  | stopped
  | completed
  | failed
deriving DecidableEq, Repr

/-- `TERMINAL_STATUSES = {"completed", "failed", "stopped"}` (test_executor.py line 63). -/
def TERMINAL_STATUSES : List Status := [Status.completed, Status.failed, Status.stopped]

/-- `PluginConfig` dataclass (test_executor.py lines 30-33); the `config` dict is
irrelevant to the mode-selection and lifecycle claims and is abstracted away. -/
structure PluginConfigM where
  name : String := "constant"
deriving DecidableEq, Repr

/-- `RunConfig` dataclass (test_executor.py lines 36-44). `user_count` is a Python
`int` and may in principle be non-positive, hence `ℤ`. -/
structure RunConfigM where
  test_type : String := "linear"
  duration_seconds : Option ℕ := none
  spawn_rate : ℚ := 10
  user_count : ℤ := 1
  num_requests : Option ℕ := none
  target_rps : Option ℚ := none
  distribution : Option PluginConfigM := none
deriving DecidableEq, Repr

/-- `RunMetrics` dataclass (test_executor.py lines 20-27).
`active_users_estimate` is a Python `int`, modelled as `ℤ` (the code guards it
with `max(0, ...)` in several places, so the type does not force positivity). -/
structure RunMetricsM where
  request_count : ℕ := 0
  success_count : ℕ := 0
  failure_count : ℕ := 0
  rps : ℚ := 0
  avg_response_time : ℚ := 0
  active_users_estimate : ℤ := 0
deriving DecidableEq, Repr

/-- `RunState` dataclass (test_executor.py lines 47-59).  The subprocess handle
is abstracted to `Option Unit` (only its presence is ever branched on by the
modelled operations) and `output_lines` is omitted (unused by the claims). -/
structure RunStateM where
  test_id : String
  status : Status := Status.pending
  start_time : Option ℕ := none
  end_time : Option ℕ := none
  config : Option RunConfigM := none
  metrics : RunMetricsM := {}
  process : Option Unit := none
  in_flight : ℤ := 0
deriving DecidableEq, Repr

/-- Python truthiness of an `Optional[int]`: `None` and `0` are falsy. -/
def optNatTruthy : Option ℕ → Bool
  | none => false
  | some n => n ≠ 0

/-- Dispatch modes chosen by `_run_test_mode` (test_executor.py lines 92-99):
`distribution` = shape mode, `duration` = paced mode, `locust` = delegation to
the external driver subprocess. -/
inductive Mode where
  | distribution
  | duration
  | locust
deriving DecidableEq, Repr

/-- `_should_use_distribution_mode` (test_executor.py lines 84-85). -/
def shouldUseDistributionMode (c : RunConfigM) : Bool :=
  c.distribution.isSome || c.target_rps.isSome

/-- `_run_test_mode` (test_executor.py lines 92-99): note the outer guard is
`if config.num_requests:` — Python truthiness, so `None` and `0` both take the
locust branch regardless of shape or `target_rps`. -/
def runTestMode (c : RunConfigM) : Mode :=
  if optNatTruthy c.num_requests then
    if shouldUseDistributionMode c then Mode.distribution else Mode.duration
  else Mode.locust

/-- Mode selection as the spec's words describe it ("If a shape is set OR
`target_rps` is set: shape mode.  If `num_requests` is set and no shape and no
`target_rps`: paced mode.  Otherwise: delegate to the external driver"),
for comparison with `runTestMode`. -/
def specMode (c : RunConfigM) : Mode :=
  if c.distribution.isSome || c.target_rps.isSome then Mode.distribution
  else if optNatTruthy c.num_requests then Mode.duration
  else Mode.locust

/-! ## Token bucket (C6) -/

/-- `_update_tokens` (test_executor.py lines 392-396). -/
def updateTokens (token_count current_rps tick_delta : ℚ) : ℚ :=
  if current_rps ≤ 0 ∨ tick_delta ≤ 0 then token_count
  else min (max 1 (current_rps * 2)) (token_count + current_rps * tick_delta)

/-! ## stop_test and format_metrics (C9, C10) -/

/-- `_stop_requested` (test_executor.py lines 88-89). -/
def stopRequested (s : Status) : Bool :=
  s = Status.stopping ∨ s = Status.stopped

/-- Result of `stop_test` (test_executor.py lines 632-652): the returned
boolean, the state after the call (`none` when the id was absent), and
whether a broadcast was pushed. -/
structure StopOutcome where
  result : Bool
  store : Option RunStateM
  broadcasted : Bool
deriving DecidableEq, Repr

/-- `stop_test` (test_executor.py lines 632-652), for a single test id: the
argument is the store entry for that id (`none` when absent), `now` the
wall-clock token written into `end_time`. -/
def stopTest (st : Option RunStateM) (now : ℕ) : StopOutcome :=
  match st with
  | none => ⟨false, none, false⟩
  | some s =>
    if s.status ∈ TERMINAL_STATUSES ∨ s.status = Status.stopping then
      ⟨true, some s, false⟩
    else
      ⟨true,
        some { s with
          status := Status.stopped
          process := none
          metrics := { s.metrics with active_users_estimate := 0 }
          in_flight := 0
          end_time := some now },
        true⟩

/-- `_configured_users` (test_executor.py lines 113-116). -/
def configuredUsers (s : RunStateM) : ℤ :=
  match s.config with
  | none => 0
  | some c => max 0 c.user_count

/-- The fields of the broadcast payload built by `format_metrics`
(test_executor.py lines 606-629) that the claims are about.  The RFC 3339
timestamp and the 2-decimal rounding of `rps` / `avg_latency_ms` are
outside the modelled fragment (wall clock, float formatting). -/
structure MetricsPayload where
  status : Status
  requests_sent : ℕ
  responses_received : ℕ
  errors : ℕ
  active_users_estimate : ℤ
  configured_users : ℤ
deriving DecidableEq, Repr

/-- `format_metrics` (test_executor.py lines 606-629). -/
def formatMetrics (s : RunStateM) : MetricsPayload :=
  let configured := configuredUsers s
  let a0 : ℤ := max 0 s.metrics.active_users_estimate
  let a1 : ℤ :=
    if s.process.isSome ∧ s.status = Status.running ∧ a0 = 0 then configured else a0
  let a2 : ℤ := if s.status ∈ TERMINAL_STATUSES then 0 else a1
  { status := s.status
    requests_sent := s.metrics.request_count
    responses_received := s.metrics.success_count
    errors := s.metrics.failure_count
    active_users_estimate := a2
    configured_users := configured }

/-! ## Status-write traces of the lifecycle operations (C4)

`execute_test` (test_executor.py lines 154-181) writes `running` at entry and,
after `_run_test_mode` finishes or raises, writes `stopped` when a stop was
requested in the meantime and `completed` / `failed` otherwise.  `stop_test`
writes `stopping` then `stopped` unless the status is already terminal or
`stopping`.  We model each status write with the status it overwrites, and a
run as an interleaving (at operation granularity) of one `execute_test` —
split into its entry write and its finalization write, since `stop_test` can
run between them — with any number of `stop_test` calls. -/

/-- One atomic status-writing step of the lifecycle code. -/
inductive LifecycleOp where
  /-- `state.status = "running"` at the top of `execute_test` (line 160). -/
  | beginExec
  /-- the `try/except` tail of `execute_test` (lines 166-178); the flag tells
  whether `_run_test_mode` raised. -/
  | finishExec (modeRaised : Bool)
  /-- a whole `stop_test` call (lines 632-652). -/
  | stopOp
deriving DecidableEq, Repr

/-- The sequence of status values an operation writes, given the status it
observes. -/
def opWrites (op : LifecycleOp) (s : Status) : List Status :=
  match op with
  | LifecycleOp.beginExec => [Status.running]
  | LifecycleOp.finishExec _ =>
    if stopRequested s then [Status.stopped]
    else
      match op with
      | LifecycleOp.finishExec true => [Status.failed]
      | _ => [Status.completed]
  | LifecycleOp.stopOp =>
    if s ∈ TERMINAL_STATUSES ∨ s = Status.stopping then []
    else [Status.stopping, Status.stopped]

/-- Fold a list of writes over a starting status, collecting the
(overwritten, written) edges. -/
def applyWrites (s : Status) : List Status → Status × List (Status × Status)
  | [] => (s, [])
  | w :: ws =>
    let rest := applyWrites w ws
    (rest.1, (s, w) :: rest.2)

/-- Run a list of lifecycle operations from a status, collecting all edges. -/
def runOps (s : Status) : List LifecycleOp → Status × List (Status × Status)
  | [] => (s, [])
  | op :: ops =>
    let step := applyWrites s (opWrites op s)
    let rest := runOps step.1 ops
    (rest.1, step.2 ++ rest.2)

/-- An interleaving of one `execute_test` with stop calls: `n1` stops before
the dispatch task starts, `n2` stops while it runs, `n3` stops after it
finished. -/
def lifecycleTrace (n1 n2 n3 : ℕ) (modeRaised : Bool) : List LifecycleOp :=
  List.replicate n1 LifecycleOp.stopOp ++
    [LifecycleOp.beginExec] ++
      List.replicate n2 LifecycleOp.stopOp ++
        [LifecycleOp.finishExec modeRaised] ++ List.replicate n3 LifecycleOp.stopOp

/-- The transition edges the claim allows:
`pending → running → {completed, failed, stopping}`, `stopping → stopped`. -/
def claimedEdges : List (Status × Status) :=
  [(Status.pending, Status.running),
   (Status.running, Status.completed),
   (Status.running, Status.failed),
   (Status.running, Status.stopping),
   (Status.stopping, Status.stopped)]

/-- The edges the code actually produces: the claimed ones, plus
`pending → stopping` (stop of a test whose dispatch task has not started),
`stopped → running` (the unconditional entry write of `execute_test` after an
early stop completed), and the terminal self-loop `stopped → stopped`
(finalization after a mid-run stop). -/
def actualEdges : List (Status × Status) :=
  claimedEdges ++
    [(Status.pending, Status.stopping),
     (Status.stopped, Status.running),
     (Status.stopped, Status.stopped)]

/-! ## Async HTTP client retry loop (src/primes/async_api_client.py, C2) -/

/-- What one dispatched HTTP attempt comes back with: a response with a status
code, or one of the exception kinds `_attempt_request` catches
(`httpx.TimeoutException`, `httpx.NetworkError`, `httpx.HTTPStatusError`,
generic `Exception`). -/
inductive AttemptOutcome where
  | resp (code : ℕ)
  | timeout
  | netError
  | httpStatusError (code : ℕ)
  | otherExc
deriving DecidableEq, Repr

/-- `httpx.Response.is_error`: `400 <= status_code < 600` (covers 4xx and 5xx). -/
def isErrorCode (code : ℕ) : Bool :=
  400 ≤ code ∧ code < 600

/-- A successful (non-error) response outcome. -/
def isSuccessOutcome : AttemptOutcome → Bool
  | AttemptOutcome.resp code => !isErrorCode code
  | _ => false

/-- What `_attempt_request` (lines 143-199) reports to the retry loop:
a response to return, a retryable error, or an `AsyncApiError` raised straight
out of `_handle_error_response` (lines 121-141, the `attempt == max_retries`
branch on an error response). -/
inductive AttemptRes where
  | ok (code : ℕ)
  | retryErr
  | raisedHttp (code : ℕ)
deriving DecidableEq, Repr

/-- One attempt: `_dispatch_request` followed by `_handle_error_response`.
Every error response — 4xx or 5xx alike, via `response.is_error` — is turned
into a retryable error while `attempt < max_retries`; all caught exceptions
are retryable at every attempt. -/
def attemptRequest (maxRetries : ℕ) (o : AttemptOutcome) (attempt : ℕ) : AttemptRes :=
  match o with
  | AttemptOutcome.resp code =>
    if isErrorCode code then
      if attempt < maxRetries then AttemptRes.retryErr else AttemptRes.raisedHttp code
    else AttemptRes.ok code
  | _ => AttemptRes.retryErr

/-- How `make_api_call` ends: a returned response, an `AsyncApiError` raised by
`_handle_error_response` on the final attempt, or the final
`raise AsyncApiError(self._final_error(...))` after the loop.  Each carries the
number of dispatched HTTP attempts. -/
inductive CallResult where
  | success (code : ℕ) (attempts : ℕ)
  | raised (code : ℕ) (attempts : ℕ)
  | exhausted (attempts : ℕ)
deriving DecidableEq, Repr

/-- `_sleep_for_retry` backoff in seconds: `min(2**attempt, 10)` (lines 98-101). -/
def backoff (attempt : ℕ) : ℕ :=
  min (2 ^ attempt) 10

/-- The `for attempt in range(max_retries + 1)` loop of `make_api_call`
(lines 240-254), with the dispatched outcomes given by `out` and the fuel
equal to the remaining loop iterations.  Returns the call result and the list
of backoff sleeps performed. -/
def callLoop (maxRetries : ℕ) (out : ℕ → AttemptOutcome) :
    ℕ → ℕ → CallResult × List ℕ
  | attempt, 0 => (CallResult.exhausted attempt, [])
  | attempt, fuel + 1 =>
    match attemptRequest maxRetries (out attempt) attempt with
    | AttemptRes.ok code => (CallResult.success code (attempt + 1), [])
    | AttemptRes.raisedHttp code => (CallResult.raised code (attempt + 1), [])
    | AttemptRes.retryErr =>
      if attempt < maxRetries then
        let rest := callLoop maxRetries out (attempt + 1) fuel
        (rest.1, backoff attempt :: rest.2)
      else callLoop maxRetries out (attempt + 1) fuel

/-- `make_api_call` (lines 201-258) as a function of the per-attempt outcomes. -/
def makeApiCall (maxRetries : ℕ) (out : ℕ → AttemptOutcome) : CallResult × List ℕ :=
  callLoop maxRetries out 0 (maxRetries + 1)

/-- The result of the final attempt when every attempt failed: an error
response raises with its status code from `_handle_error_response`; an
exception outcome falls out of the loop into the `_final_error` raise. -/
def finalFailure (o : AttemptOutcome) (maxRetries : ℕ) : CallResult :=
  match o with
  | AttemptOutcome.resp code =>
    if isErrorCode code then CallResult.raised code (maxRetries + 1)
    else CallResult.success code (maxRetries + 1)
  | _ => CallResult.exhausted (maxRetries + 1)

/-- The attempt outcomes of the C2 counterexample: a 404 on the first attempt,
then a 200. -/
def out404then200 : ℕ → AttemptOutcome
  | 0 => AttemptOutcome.resp 404
  | _ => AttemptOutcome.resp 200

/-- The backoff sleeps of `n` consecutive failed attempts starting at
`attempt = a` (a recursion-friendly spelling of `(List.range' a n).map backoff`). -/
def backoffSeq : ℕ → ℕ → List ℕ
  | _, 0 => []
  | a, n + 1 => backoff a :: backoffSeq (a + 1) n

/-! ## Sine and linear evaluators (C3)

`SineDistribution` (src/primes/distributions/sine.py) and `LinearDistribution`
(src/primes/distributions/linear.py) after `initialize` has run: the structure
holds the parsed parameter values and the parse-error flag. -/

open Real in
/-- State of a `SineDistribution` after `initialize` (sine.py lines 89-96). -/
structure SineStateM where
  period : ℝ
  amplitude : ℝ
  phase_shift : ℝ
  base_rps : Option ℝ
  parse_error : Bool

/-- `base_rps if self.base_rps else target_rps` — Python float truthiness:
`None` and `0.0` both fall back to `target_rps`. -/
noncomputable def sineBase (base_rps : Option ℝ) (target_rps : ℝ) : ℝ :=
  match base_rps with
  | none => target_rps
  | some b => if b = 0 then target_rps else b

/-- `SineDistribution.get_rate` (sine.py lines 98-106).  Note: no clamping of
negative outputs. -/
noncomputable def sineGetRate (st : SineStateM) (time_elapsed target_rps : ℝ) : ℝ :=
  if st.period ≤ 0 then target_rps
  else
    sineBase st.base_rps target_rps *
      (1 + st.amplitude *
        Real.sin (2 * Real.pi * (time_elapsed + st.phase_shift) / st.period))

/-- `SineDistribution.validate` (sine.py lines 108-147); finiteness checks are
vacuous in the real-number model. -/
def sineValidate (st : SineStateM) : Prop :=
  st.parse_error = false ∧ 0 < st.period ∧ (0 < st.amplitude ∧ st.amplitude ≤ 1) ∧
    0 ≤ st.phase_shift ∧ ∀ b, st.base_rps = some b → 0 < b

/-- State of a `LinearDistribution` after `initialize` (linear.py lines 45-54). -/
structure LinearStateM where
  ramp_duration : ℝ
  parse_error : Bool

/-- `LinearDistribution.get_rate` (linear.py lines 56-65). -/
noncomputable def linearGetRate (st : LinearStateM) (time_elapsed target_rps : ℝ) : ℝ :=
  if st.ramp_duration ≤ 0 then target_rps
  else if st.ramp_duration ≤ time_elapsed then target_rps
  else time_elapsed / st.ramp_duration * target_rps

/-- The sine state of the C3 counterexample: `initialize({"period": 4,
"amplitude": 2, "base_rps": 1})` parses fine (`amplitude = 2` is only rejected
later by `validate`, which the dispatcher may never call — loaders
deliberately skip it). -/
noncomputable def sineCounterexampleState : SineStateM :=
  { period := 4, amplitude := 2, phase_shift := 0, base_rps := some 1,
    parse_error := false }

/-! ## Step evaluator (C5)

`StepDistribution` (src/primes/distributions/step.py) after `initialize`:
`steps` holds the parsed, sorted `[time, rps]` pairs. -/

/-- State of a `StepDistribution` after `initialize` (step.py lines 87-99). -/
structure StepStateM where
  steps : List (ℚ × ℚ)
  default_rps : ℚ
  parse_error : Bool
deriving DecidableEq, Repr

/-- The `for step_time, step_rate in self.steps: if step_time <= t: rate = step_rate
else: break` loop of `get_rate` (step.py lines 125-132), with its early break. -/
def stepScan (t : ℚ) : ℚ → List (ℚ × ℚ) → ℚ
  | rate, [] => rate
  | rate, (step_time, step_rate) :: rest =>
    if step_time ≤ t then stepScan t step_rate rest else rate

/-- `StepDistribution.get_rate` (step.py lines 101-135). -/
def stepGetRate (st : StepStateM) (time_elapsed target_rps : ℚ) : ℚ :=
  if st.parse_error then max 0 target_rps
  else if st.steps = [] then max 0 target_rps
  else max 0 (stepScan time_elapsed st.default_rps st.steps)

/-- The rate the claim describes: "the rate of the last step whose time is
<= t, or default_rps when no step time is <= t". -/
def stepSpecRate (st : StepStateM) (time_elapsed : ℚ) : ℚ :=
  ((st.steps.filter (fun p => p.1 ≤ time_elapsed)).map (fun p => p.2)).getLastD
    st.default_rps

/-- The step state of the C5 counterexample: `initialize({"steps": [],
"default_rps": 5})`. -/
def stepEmptyState : StepStateM :=
  { steps := [], default_rps := 5, parse_error := false }

/-! ## Sequence evaluator (C7)

`SequenceDistribution` (src/primes/distributions/sequence.py) after
`initialize`: the child plugin instances are modelled by their (deterministic)
rate functions, as the claim assumes deterministic child evaluators. -/

/-- State of a `SequenceDistribution` after `initialize` (sequence.py
lines 141-164).  `plugins`, `durations`, `starts` are the parallel lists built
by the stage-parsing loop; `total` is `_total_duration`. -/
structure SeqStateM where
  plugins : List (ℝ → ℝ → ℝ)
  durations : List ℝ
  starts : List ℝ
  total : ℝ
  post_behavior : String
  parse_error : Bool

/-- Python float `%`: `a % b = a - b * floor(a / b)` (for `b > 0` this lands
in `[0, b)`, as in Python). -/
noncomputable def pymod (a b : ℝ) : ℝ :=
  a - b * ⌊a / b⌋

/-- `_elapsed_for_behavior` (sequence.py lines 122-131): `none` encodes the
hold-last marker (the Python `None` return). -/
noncomputable def elapsedForBehavior (st : SeqStateM) (elapsed target_rps : ℝ) :
    Option (ℝ × ℝ) :=
  if st.post_behavior = "repeat" then some (pymod elapsed st.total, target_rps)
  else if elapsed < st.total then some (elapsed, target_rps)
  else if st.post_behavior = "zero" then some (elapsed, 0)
  else if st.post_behavior = "hold_last" then none
  else some (elapsed, target_rps)

/-- The enumeration loop of `_find_active_stage` (sequence.py lines 133-139)
over `zip(starts, durations)` with running index `i`, falling back to
`len(plugins) - 1`. -/
noncomputable def findStageAux (fallback : ℤ) (elapsed : ℝ) :
    ℕ → List (ℝ × ℝ) → ℤ
  | _, [] => fallback
  | i, (stage_start, duration) :: rest =>
    if elapsed < stage_start + duration then (i : ℤ)
    else findStageAux fallback elapsed (i + 1) rest

/-- `_find_active_stage` (sequence.py lines 133-139). -/
noncomputable def findActiveStage (st : SeqStateM) (elapsed : ℝ) : ℤ :=
  findStageAux ((st.plugins.length : ℤ) - 1) elapsed 0 (st.starts.zip st.durations)

/-- `_rate_for_stage` (sequence.py lines 116-120).  Out-of-range indices would
raise `IndexError` in Python; in every state reachable from `initialize` the
index produced by `_find_active_stage` is in range, so the `getD` defaults are
never consulted by the theorems below. -/
noncomputable def rateForStage (st : SeqStateM) (index : ℤ) (elapsed target_rps : ℝ) : ℝ :=
  if index < 0 then max 0 target_rps
  else
    let i := index.toNat
    let stage_start := st.starts.getD i 0
    (st.plugins.getD i fun _ r => r) (elapsed - stage_start) target_rps

/-- `SequenceDistribution.get_rate` (sequence.py lines 166-201). -/
noncomputable def seqGetRate (st : SeqStateM) (time_elapsed target_rps : ℝ) : ℝ :=
  if st.parse_error || st.plugins.isEmpty then max 0 target_rps
  else if st.total ≤ 0 then max 0 target_rps
  else
    match elapsedForBehavior st time_elapsed target_rps with
    | none => rateForStage st ((st.plugins.length : ℤ) - 1) time_elapsed target_rps
    | some (elapsed, fallback_rate) =>
      if fallback_rate = 0 then 0
      else rateForStage st (findActiveStage st elapsed) elapsed target_rps

/-- A concrete repeat-mode sequence state (stages `constant 10` and
`constant 30`, 10 s each), used by the C7 witness. -/
noncomputable def seqRepeatExample : SeqStateM :=
  { plugins := [fun _ _ => 10, fun _ _ => 30]
    durations := [10, 10]
    starts := [0, 10]
    total := 20
    post_behavior := "repeat"
    parse_error := false }

/-! ## Runtime-typed config values and composite validation (C8)

The admission layer hands the validators JSON-like dictionaries.  `JVal`
embeds those runtime values; `JVal.null` stands for both JSON `null` and
Python `None` (a missing key reads as `None` via `dict.get`).  Two deliberate
fragment restrictions, both unexercised by the theorems below: JSON decoding
of *string-typed* composite list fields (`json.loads` inside
`parse_json_or_list` / `_normalize_list_field`) is not modelled — the modelled
inputs carry structured lists, as produced by the admission layer — and
`float(str)` accepts only plain decimal literals (no exponents, `inf`, `nan`,
or underscores). -/

/-- A runtime configuration value (JSON-like Python value). -/
inductive JVal where
  | null
  | bool (b : Bool)
  | num (q : ℚ)
  | str (s : String)
  | arr (xs : List JVal)
  | obj (kvs : List (String × JVal))

/-- A configuration dictionary. -/
abbrev JObj := List (String × JVal)

/-- Dictionary lookup (`config[key]` presence). -/
def jlookup : JObj → String → Option JVal
  | [], _ => none
  | (k, v) :: rest, key => if k = key then some v else jlookup rest key

/-- `config.get(key)`: missing keys read as `None`. -/
def pyGet (o : JObj) (key : String) : JVal :=
  (jlookup o key).getD JVal.null

/-- `key in config`. -/
def hasKey (o : JObj) (key : String) : Bool :=
  (jlookup o key).isSome

/-- Python truthiness of a dict (`if config`). -/
def jTruthyObj (o : JObj) : Bool :=
  !o.isEmpty

/-- Python truthiness of a runtime value. -/
def jTruthy : JVal → Bool
  | JVal.null => false
  | JVal.bool b => b
  | JVal.num q => q ≠ 0
  | JVal.str s => s ≠ ""
  | JVal.arr xs => !xs.isEmpty
  | JVal.obj o => !o.isEmpty

/-- Digit run to a natural number (empty list allowed, reads as 0 —
callers enforce non-emptiness where Python does). -/
def decDigitsAux : List Char → ℕ → Option ℕ
  | [], acc => some acc
  | c :: rest, acc =>
    if c.isDigit then decDigitsAux rest (acc * 10 + (c.toNat - 48)) else none

/-- `float(s)` on a plain decimal literal: optional sign, integer part,
optional fractional part (at least one digit part non-empty, as Python
accepts `"1."` and `".5"` but not `"."`). -/
def pyFloatOfString? (s : String) : Option ℚ :=
  let cs := (s.toList.dropWhile (· = ' ')).reverse.dropWhile (· = ' ') |>.reverse
  let signedBody : Bool × List Char :=
    match cs with
    | '-' :: rest => (true, rest)
    | '+' :: rest => (false, rest)
    | rest => (false, rest)
  let body := signedBody.2
  let intPart := body.takeWhile (· ≠ '.')
  let rest := body.dropWhile (· ≠ '.')
  let fracPart : Option (List Char) :=
    match rest with
    | [] => none
    | _ :: frac => some frac
  match decDigitsAux intPart 0 with
  | none => none
  | some ip =>
    let magnitude : Option ℚ :=
      match fracPart with
      | none => if intPart.isEmpty then none else some (ip : ℚ)
      | some frac =>
        if intPart.isEmpty ∧ frac.isEmpty then none
        else
          match decDigitsAux frac 0 with
          | none => none
          | some fp => some ((ip : ℚ) + (fp : ℚ) / (10 : ℚ) ^ frac.length)
    match magnitude with
    | none => none
    | some m => some (if signedBody.1 then -m else m)

/-- `to_float` (utils.py lines 12-45): booleans explicitly rejected, numerics
passed through, strings via `float(s)`, everything else the default. -/
def toFloat (v : JVal) (default : Option ℚ) : Option ℚ :=
  match v with
  | JVal.bool _ => default
  | JVal.num q => some q
  | JVal.str s =>
    match pyFloatOfString? s with
    | some q => some q
    | none => default
  | _ => default

/-- `parse_float` (utils.py lines 48-85): `(value, ok)` pair; `None` is valid
and yields the default. -/
def parseFloat (v : JVal) (default : Option ℚ) : Option ℚ × Bool :=
  match v with
  | JVal.null => (default, true)
  | JVal.bool _ => (default, false)
  | JVal.num q => (some q, true)
  | JVal.str s =>
    match pyFloatOfString? s with
    | some q => (some q, true)
    | none => (default, false)
  | _ => (default, false)

/-- `validate_numeric` (utils.py lines 88-146); the finiteness check is
vacuous on `ℚ`. -/
def validateNumeric (v : Option ℚ) (allow_none positive non_negative : Bool) : Bool :=
  match v with
  | none => allow_none
  | some q =>
    (if positive then decide (0 < q) else true) &&
      (if non_negative then decide (0 ≤ q) else true)

/-- `parse_json_or_list` (utils.py lines 173-228) on runtime values; the
string branch (`json.loads`) is outside the modelled fragment and reads as a
parse failure. -/
def parseJsonOrList (v : JVal) : Bool × JVal :=
  match v with
  | JVal.null => (true, JVal.null)
  | JVal.str _ => (false, JVal.null)
  | JVal.arr xs => (true, JVal.arr xs)
  | JVal.obj o => (true, JVal.obj o)
  | _ => (false, JVal.null)

/-- The builtin registry contents after `register_builtin_distributions`
(distributions/__init__.py lines 36-51); `get_plugin_class` self-heals by
registering the builtins, so exactly these names resolve. -/
def knownPluginNames : List String :=
  ["constant", "linear", "poisson", "step", "sine", "mix", "sequence"]

/-- `get_plugin_class(name) is not None`. -/
def knownPlugin (name : String) : Bool :=
  name ∈ knownPluginNames

/-- `ConstantDistribution`: `initialize` then `validate`
(constant.py lines 32-81). -/
def constantInitValidate (cfg : JObj) : Bool :=
  let rps : Option ℚ × Bool :=
    if jTruthyObj cfg && hasKey cfg "rps" then
      let p := parseFloat (pyGet cfg "rps") none
      (p.1, !p.2)
    else (none, false)
  !rps.2 && validateNumeric rps.1 true true false

/-- `LinearDistribution`: `initialize` then `validate`
(linear.py lines 45-85). -/
def linearInitValidate (cfg : JObj) : Bool :=
  let ramp : Option ℚ × Bool :=
    if hasKey cfg "ramp_duration" then
      let p := parseFloat (pyGet cfg "ramp_duration") (some 60)
      (p.1, !p.2)
    else (some 60, false)
  !ramp.2 && validateNumeric ramp.1 true true false

/-- `PoissonDistribution`: `initialize` then `validate`
(poisson.py lines 49-125). -/
def poissonInitValidate (cfg : JObj) : Bool :=
  let lam : Option ℚ × Bool :=
    if jTruthyObj cfg && hasKey cfg "lambda_param" then
      let p := parseFloat (pyGet cfg "lambda_param") none
      (p.1, !p.2)
    else (none, false)
  let vs : Option ℚ × Bool :=
    if hasKey cfg "variance_scale" then
      let p := parseFloat (pyGet cfg "variance_scale") (some 1)
      (p.1, !p.2)
    else (some 1, false)
  !(lam.2 || vs.2) && validateNumeric lam.1 true true false &&
    validateNumeric vs.1 false true false

/-- `SineDistribution._parse_required_float` (sine.py lines 69-77). -/
def sineParseReq (cfg : JObj) (key : String) (default : ℚ) : Option ℚ × Bool :=
  if hasKey cfg key then
    let p := parseFloat (pyGet cfg key) (some default)
    (p.1, !p.2)
  else (some default, false)

/-- `SineDistribution._parse_optional_float` (sine.py lines 79-87). -/
def sineParseOpt (cfg : JObj) (key : String) : Option ℚ × Bool :=
  if hasKey cfg key then
    let p := parseFloat (pyGet cfg key) none
    (p.1, !p.2)
  else (none, false)

/-- `SineDistribution`: `initialize` then `validate`
(sine.py lines 89-147); range checks over the parsed rationals. -/
def sineInitValidate (cfg : JObj) : Bool :=
  let period := sineParseReq cfg "period" 3600
  let amplitude := sineParseReq cfg "amplitude" (1 / 2)
  let phase := sineParseReq cfg "phase_shift" 0
  let base := sineParseOpt cfg "base_rps"
  let perr := period.2 || amplitude.2 || phase.2 || base.2
  !perr && validateNumeric period.1 false true false &&
    (validateNumeric amplitude.1 false true false &&
      (match amplitude.1 with
       | some a => decide (0 < a ∧ a ≤ 1)
       | none => false)) &&
    validateNumeric phase.1 false false true &&
    validateNumeric base.1 true true false

/-- `float(x)` applied to a runtime value inside the step comprehension —
note `float(True) == 1.0` (`bool` is an `int` subclass). -/
def floatCast? : JVal → Option ℚ
  | JVal.num q => some q
  | JVal.bool b => some (if b then 1 else 0)
  | JVal.str s => pyFloatOfString? s
  | _ => none

/-- One `[time, rps]` entry of the step list. -/
def parseStepPair : JVal → Option (ℚ × ℚ)
  | JVal.arr [a, b] =>
    match floatCast? a, floatCast? b with
    | some t, some r => some (t, r)
    | _, _ => none
  | _ => none

/-- Lexicographic order on pairs, as Python `sorted` on 2-tuples. -/
def pairLe (p q : ℚ × ℚ) : Bool :=
  p.1 < q.1 ∨ (p.1 = q.1 ∧ p.2 ≤ q.2)

/-- `StepDistribution._parse_steps` (step.py lines 57-68): parsed pairs sorted
lexicographically; second component is the `_parse_error` contribution. -/
def stepParseSteps (v : JVal) : List (ℚ × ℚ) × Bool :=
  if !jTruthy v then ([], false)
  else
    let p := parseJsonOrList v
    match p.1, p.2 with
    | true, JVal.arr xs =>
      match xs.mapM parseStepPair with
      | some pairs => (pairs.mergeSort pairLe, false)
      | none => ([], true)
    | _, _ => ([], true)

/-- The `_is_valid_step` loop of `StepDistribution.validate`
(step.py lines 70-85, 166-170): times strictly increasing from `-1.0`,
times and rates non-negative. -/
def stepStepsValidAux : ℚ → List (ℚ × ℚ) → Bool
  | _, [] => true
  | prev, (t, r) :: rest =>
    decide (0 ≤ t) && decide (0 ≤ r) && decide (prev < t) && stepStepsValidAux t rest

/-- `StepDistribution`: `initialize` then `validate` (step.py lines 87-173). -/
def stepInitValidate (cfg : JObj) : Bool :=
  let dflt : Option ℚ × Bool :=
    if hasKey cfg "default_rps" then
      let p := parseFloat (pyGet cfg "default_rps") (some 0)
      (p.1, !p.2)
    else (some 0, false)
  let steps := stepParseSteps (pyGet cfg "steps")
  !(dflt.2 || steps.2) && validateNumeric dflt.1 false false true &&
    stepStepsValidAux (-1) steps.1

/-- `duration_seconds` cast in `SequenceDistribution._parse_stage`
(sequence.py lines 72-76): `isinstance(value, (int, float))` — booleans pass
the instance check. -/
def durCast : JVal → Option ℚ
  | JVal.num q => some q
  | JVal.bool b => some (if b then 1 else 0)
  | _ => none

/-- `SequenceDistribution._parse_stage` (sequence.py lines 65-104), reduced to
the data `validate` later consumes: duration, child name, child config. -/
def seqParseStage (stage : JVal) : Option (ℚ × String × JObj) :=
  match stage with
  | JVal.obj st =>
    match durCast (pyGet st "duration_seconds") with
    | none => none
    | some dur =>
      match pyGet st "distribution" with
      | JVal.obj dist =>
        match jlookup dist "name" with
        | some (JVal.str name) =>
          if knownPlugin name then
            match jlookup dist "config" with
            | none => some (dur, name, [])
            | some JVal.null => some (dur, name, [])
            | some (JVal.obj c) => some (dur, name, c)
            | some _ => none
          else none
        | _ => none
      | _ => none
  | _ => none

/-- The stage-collecting loop of `SequenceDistribution.initialize`
(sequence.py lines 155-162): failed stages are skipped with the parse-error
flag set. -/
def seqCollectStages : List JVal → List (ℚ × String × JObj) × Bool
  | [] => ([], false)
  | stage :: rest =>
    let tail := seqCollectStages rest
    match seqParseStage stage with
    | none => (tail.1, true)
    | some s => (s :: tail.1, tail.2)

/-- Cumulative stage start times (`_finalize_stage_timeline`,
sequence.py lines 106-111). -/
def cumStarts : ℚ → List ℚ → List ℚ
  | _, [] => []
  | acc, d :: rest => acc :: cumStarts (acc + d) rest

/-- The per-stage checks of `SequenceDistribution.validate`
(sequence.py lines 232-246): positive duration, non-negative start, valid
child. -/
def seqChecksAux (childValidate : String → JObj → Bool) :
    List ((ℚ × String × JObj) × ℚ) → Bool
  | [] => true
  | ((dur, name, c), start) :: rest =>
    decide (0 < dur) && decide (0 ≤ start) && childValidate name c &&
      seqChecksAux childValidate rest

/-- `SequenceDistribution`: `initialize` then `validate`
(sequence.py lines 141-164, 203-255), with the child evaluators' combined
initialize-and-validate supplied as `childValidate`. -/
def seqInitValidate (childValidate : String → JObj → Bool) (cfg : JObj) : Bool :=
  let pb : String × Bool :=
    match jlookup cfg "post_behavior" with
    | none => ("hold_last", false)
    | some (JVal.str s) => (s, false)
    | some _ => ("hold_last", true)
  let sd : Option (List JVal) × Bool :=
    match jlookup cfg "stages" with
    | none => (some [], false)
    | some JVal.null => (some [], false)
    | some v =>
      let p := parseJsonOrList v
      match p.1, p.2 with
      | true, JVal.arr xs => (some xs, false)
      | _, _ => (none, true)
  match sd.1 with
  | none => false
  | some stagesData =>
    let collected := seqCollectStages stagesData
    let stages := collected.1
    let perr := pb.2 || sd.2 || collected.2
    let durations := stages.map (fun s => s.1)
    let starts := cumStarts 0 durations
    let total : ℚ := durations.foldl (· + ·) 0
    !perr && !stages.isEmpty &&
      decide (pb.1 ∈ ["hold_last", "zero", "repeat"]) &&
      seqChecksAux childValidate (stages.zip starts) &&
      decide (0 < total)

/-- `MixDistribution._parse_single_component` (mix.py lines 65-108), reduced
to the data `validate` later consumes: weight, target override, child name,
child config. -/
def mixParseComponent (comp : JVal) : Option (ℚ × Option ℚ × String × JObj) :=
  match comp with
  | JVal.obj co =>
    match toFloat (pyGet co "weight") none with
    | none => none
    | some w =>
      match pyGet co "distribution" with
      | JVal.obj dist =>
        match jlookup dist "name" with
        | some (JVal.str name) =>
          if knownPlugin name then
            let ccfg : Option JObj :=
              match jlookup dist "config" with
              | none => some []
              | some JVal.null => some []
              | some (JVal.obj c) => some c
              | some _ => none
            match ccfg with
            | none => none
            | some c =>
              match pyGet c "target_rps", toFloat (pyGet c "target_rps") none with
              | JVal.null, _ => some (w, none, name, c)
              | _, some o => some (w, some o, name, c)
              | _, none => none
          else none
        | _ => none
      | _ => none
  | _ => none

/-- The component-collecting loop of `MixDistribution.initialize`
(mix.py lines 139-147). -/
def mixCollectComponents : List JVal → List (ℚ × Option ℚ × String × JObj) × Bool
  | [] => ([], false)
  | comp :: rest =>
    let tail := mixCollectComponents rest
    match mixParseComponent comp with
    | none => (tail.1, true)
    | some c => (c :: tail.1, tail.2)

/-- The per-component checks of `MixDistribution.validate`
(mix.py lines 222-232). -/
def mixChecksAux (childValidate : String → JObj → Bool) :
    List (ℚ × Option ℚ × String × JObj) → Bool
  | [] => true
  | (w, ov, name, c) :: rest =>
    validateNumeric (some w) false true false &&
      validateNumeric ov true true false && childValidate name c &&
      mixChecksAux childValidate rest

/-- `MixDistribution`: `initialize` then `validate`
(mix.py lines 125-149, 193-244), with child evaluation supplied as
`childValidate`. -/
def mixInitValidate (childValidate : String → JObj → Bool) (cfg : JObj) : Bool :=
  let tv : JVal := if jTruthyObj cfg then pyGet cfg "target_rps" else JVal.null
  let mt := toFloat tv none
  let terr : Bool :=
    match tv with
    | JVal.null => false
    | _ => mt.isNone
  let cd : Option (List JVal) × Bool :=
    match jlookup cfg "components" with
    | none => (some [], false)
    | some JVal.null => (some [], false)
    | some v =>
      let p := parseJsonOrList v
      match p.1, p.2 with
      | true, JVal.arr xs => (some xs, false)
      | _, _ => (none, true)
  match cd.1 with
  | none => false
  | some compsData =>
    let collected := mixCollectComponents compsData
    let comps := collected.1
    let perr := terr || cd.2 || collected.2
    let weights := comps.map (fun c => c.1)
    let totalWeight := weights.foldl (· + ·) 0
    let normalized : List ℚ :=
      if totalWeight ≤ 0 then [] else weights.map (fun w => w / totalWeight)
    !perr && !comps.isEmpty && validateNumeric mt true true false &&
      mixChecksAux childValidate comps &&
      !normalized.isEmpty &&
      decide ((0 : ℚ) < normalized.foldl (· + ·) 0)

/-- `instantiate` + `validate` dispatch on the registry name; the fuel bounds
composite nesting depth (the Python recursion terminates because nested
configs are structurally smaller). -/
def pluginInitValidate : ℕ → String → JObj → Bool
  | _, "constant", cfg => constantInitValidate cfg
  | _, "linear", cfg => linearInitValidate cfg
  | _, "poisson", cfg => poissonInitValidate cfg
  | _, "step", cfg => stepInitValidate cfg
  | _, "sine", cfg => sineInitValidate cfg
  | 0, "mix", _ => false
  | Nat.succ f, "mix", cfg =>
    mixInitValidate (fun n c => pluginInitValidate f n c) cfg
  | 0, "sequence", _ => false
  | Nat.succ f, "sequence", cfg =>
    seqInitValidate (fun n c => pluginInitValidate f n c) cfg
  | _, _, _ => false

/-- `_is_positive_number` (validation.py lines 83-84): `bool` is an `int`
subclass in Python, so `True` counts as the positive number 1. -/
def isPositiveNumber : JVal → Bool
  | JVal.num q => decide (0 < q)
  | JVal.bool b => b
  | _ => false

/-- Dict assignment `config[field] = value`. -/
def jset : JObj → String → JVal → JObj
  | [], key, v => [(key, v)]
  | (k, v') :: rest, key, v =>
    if k = key then (key, v) :: rest else (k, v') :: jset rest key v

/-- `_normalize_list_field` (validation.py lines 38-53).  `Except.error`
models the raised `ValueError`; the `json.loads` branch for string values is
outside the modelled fragment and reads as the raise. -/
def normalizeListField (config : JObj) (fieldName : String) : Except String JObj :=
  match jlookup config fieldName with
  | none => Except.ok config
  | some v =>
    match v with
    | JVal.str _ => Except.error (fieldName ++ " must be a JSON array or list")
    | JVal.arr xs => Except.ok (jset config fieldName (JVal.arr xs))
    | _ => Except.error (fieldName ++ " must be a list")

/-- `normalize_distribution_config` (validation.py lines 7-12). -/
def normalizeDistributionConfig (name : String) (config : JObj) : Except String JObj :=
  if name = "mix" then normalizeListField config "components"
  else if name = "sequence" then normalizeListField config "stages"
  else Except.ok config

/-- `_distribution_errors` (validation.py lines 56-80), with the recursive
call to `validate_distribution_config` supplied as `recur`. -/
def distributionErrors (recur : String → JObj → String → Except String (List String))
    (container : JObj) (index : ℕ) (parentField : String) :
    Except String (List String) :=
  match pyGet container "distribution" with
  | JVal.obj dist =>
    match jlookup dist "name" with
    | some (JVal.str name) =>
      if name = "" then
        Except.ok
          [parentField ++ "[" ++ toString index ++ "].distribution.name is required"]
      else
        let cfgv : Option JObj :=
          match jlookup dist "config" with
          | none => some []
          | some JVal.null => some []
          | some (JVal.obj c) => some c
          | some _ => none
        match cfgv with
        | none =>
          Except.ok
            [parentField ++ "[" ++ toString index ++
              "].distribution.config must be an object"]
        | some c => do
          let nested ← normalizeDistributionConfig name c
          recur name nested (parentField ++ "[" ++ toString index ++ "].distribution")
    | _ =>
      Except.ok
        [parentField ++ "[" ++ toString index ++ "].distribution.name is required"]
  | _ =>
    Except.ok [parentField ++ "[" ++ toString index ++ "].distribution must be an object"]

/-- The component loop of `_validate_mix_config` (validation.py lines 93-99). -/
def mixComponentsErrors (recur : String → JObj → String → Except String (List String)) :
    ℕ → List JVal → Except String (List String)
  | _, [] => Except.ok []
  | i, comp :: rest =>
    match comp with
    | JVal.obj co => do
      let werrs :=
        if isPositiveNumber (pyGet co "weight") then []
        else ["components[" ++ toString i ++ "].weight must be > 0"]
      let derrs ← distributionErrors recur co i "components"
      let tail ← mixComponentsErrors recur (i + 1) rest
      Except.ok (werrs ++ derrs ++ tail)
    | _ => do
      let tail ← mixComponentsErrors recur (i + 1) rest
      Except.ok (("components[" ++ toString i ++ "] must be an object") :: tail)

/-- `_validate_mix_config` (validation.py lines 87-101). -/
def mixConfigErrors (recur : String → JObj → String → Except String (List String))
    (config : JObj) : Except String (List String) :=
  match jlookup config "components" with
  | some (JVal.arr comps) =>
    if comps.isEmpty then Except.ok ["components must be a non-empty list"]
    else mixComponentsErrors recur 0 comps
  | _ => Except.ok ["components must be a non-empty list"]

/-- The stage loop of `_validate_sequence_config` (validation.py
lines 110-116). -/
def seqStagesErrors (recur : String → JObj → String → Except String (List String)) :
    ℕ → List JVal → Except String (List String)
  | _, [] => Except.ok []
  | i, stage :: rest =>
    match stage with
    | JVal.obj st => do
      let derrs0 :=
        if isPositiveNumber (pyGet st "duration_seconds") then []
        else ["stages[" ++ toString i ++ "].duration_seconds must be > 0"]
      let derrs ← distributionErrors recur st i "stages"
      let tail ← seqStagesErrors recur (i + 1) rest
      Except.ok (derrs0 ++ derrs ++ tail)
    | _ => do
      let tail ← seqStagesErrors recur (i + 1) rest
      Except.ok (("stages[" ++ toString i ++ "] must be an object") :: tail)

/-- `_validate_sequence_config` (validation.py lines 104-126). -/
def seqConfigErrors (recur : String → JObj → String → Except String (List String))
    (config : JObj) : Except String (List String) :=
  match jlookup config "stages" with
  | some (JVal.arr stages) =>
    if stages.isEmpty then Except.ok ["stages must be a non-empty list"]
    else do
      let errs ← seqStagesErrors recur 0 stages
      let pbErrs :=
        match jlookup config "post_behavior" with
        | none => []
        | some JVal.null => []
        | some (JVal.str s) =>
          if s = "hold_last" ∨ s = "zero" ∨ s = "repeat" then []
          else ["post_behavior must be one of: hold_last, zero, repeat"]
        | some _ => ["post_behavior must be one of: hold_last, zero, repeat"]
      Except.ok (errs ++ pbErrs)
  | _ => Except.ok ["stages must be a non-empty list"]

/-- `validate_distribution_config` (validation.py lines 15-35); the fuel
bounds composite nesting depth. -/
def validateDistributionConfig :
    ℕ → String → JObj → String → Except String (List String)
  | 0, _, _, _ => Except.ok []
  | Nat.succ f, name, config, path =>
    if !knownPlugin name then
      Except.ok [path ++ ".name '" ++ name ++ "' not found"]
    else do
      let errors ←
        if name = "mix" then
          mixConfigErrors (fun n c p => validateDistributionConfig f n c p) config
        else if name = "sequence" then
          seqConfigErrors (fun n c p => validateDistributionConfig f n c p) config
        else Except.ok []
      if !errors.isEmpty then Except.ok errors
      else if pluginInitValidate f name config then Except.ok []
      else Except.ok [path ++ " validation failed"]

/-- `_validate_mix_config` at ample fuel — the composite validation helper
named by C8. -/
def validateMixConfigFn (config : JObj) : Except String (List String) :=
  mixConfigErrors (fun n c p => validateDistributionConfig 8 n c p) config

/-- `validate_distribution_config(name, config)` with the default
`path="config"` at ample fuel. -/
def validateDistributionConfigFn (name : String) (config : JObj) :
    Except String (List String) :=
  validateDistributionConfig 9 name config "config"

/-- The C8 input: a mix config whose single component is
`{weight: -1, distribution: {name: constant, config: {}}}`. -/
def mixClaimConfig : JObj :=
  [("components", JVal.arr [JVal.obj
    [("weight", JVal.num (-1)),
     ("distribution", JVal.obj
       [("name", JVal.str "constant"), ("config", JVal.obj [])])]])]

/-- A terminal run state whose stored estimate is stale (C10 witness). -/
def failedStaleState : RunStateM :=
  { test_id := "a", status := Status.failed,
    metrics := { active_users_estimate := 7 } }

/-- A running, subprocess-backed run state with stored estimate 0 (C10
witness). -/
def runningProcState : RunStateM :=
  { test_id := "b", status := Status.running, process := some (),
    config := some { user_count := 4 } }

/-- A completed run state (C9 witness). -/
def completedStateW : RunStateM :=
  { test_id := "t", status := Status.completed }

/-! # Theorems -/

/-! ## C1 — dispatcher mode selection -/

/-- C1 counterexample: a config with a shape and `duration_seconds` but no
`num_requests` is delegated to the external locust driver by
`_run_test_mode`, not run in shape mode as the claim states (the spec's
reading of the same config would be shape mode). -/
theorem mode_selection_counterexample :
    runTestMode { duration_seconds := some 60,
                  distribution := some { name := "constant" } } = Mode.locust ∧
      specMode { duration_seconds := some 60,
                 distribution := some { name := "constant" } } = Mode.distribution ∧
      Mode.locust ≠ Mode.distribution := by
  refine ⟨rfl, rfl, ?_⟩
  decide

/-- C1 amended: `_run_test_mode` runs shape mode exactly when `num_requests`
is set and truthy (non-`None`, non-zero) AND a distribution or `target_rps`
is set; paced mode exactly when `num_requests` is truthy and neither a
distribution nor `target_rps` is set; everything else — including configs
with a shape but no `num_requests` — goes to the external locust driver. -/
theorem mode_selection_characterization (c : RunConfigM) :
    (runTestMode c = Mode.distribution ↔
      optNatTruthy c.num_requests = true ∧
        (c.distribution.isSome = true ∨ c.target_rps.isSome = true)) ∧
    (runTestMode c = Mode.duration ↔
      optNatTruthy c.num_requests = true ∧
        ¬(c.distribution.isSome = true ∨ c.target_rps.isSome = true)) ∧
    (runTestMode c = Mode.locust ↔ optNatTruthy c.num_requests = false) := by
  unfold runTestMode shouldUseDistributionMode
  cases h : optNatTruthy c.num_requests <;>
    cases hd : c.distribution.isSome <;>
      cases ht : c.target_rps.isSome <;> simp

/-! ## C4 — status transition edges -/

/-- C4 counterexample: `stop_test` on a test whose status is still `pending`
(its dispatch task has not started) writes `stopping` over `pending` — an
edge absent from the claimed edge set. -/
theorem lifecycle_edges_counterexample :
    (runOps Status.pending [LifecycleOp.stopOp]).2 =
        [(Status.pending, Status.stopping), (Status.stopping, Status.stopped)] ∧
      (Status.pending, Status.stopping) ∉ claimedEdges := by
  refine ⟨rfl, ?_⟩
  decide

/-- Helper: running a list of operations over a concatenation splits. -/
theorem runOps_append (s : Status) (l1 l2 : List LifecycleOp) :
    runOps s (l1 ++ l2) =
      ((runOps (runOps s l1).1 l2).1,
        (runOps s l1).2 ++ (runOps (runOps s l1).1 l2).2) := by
  induction l1 generalizing s with
  | nil => simp [runOps]
  | cons op rest ih =>
    simp only [List.cons_append, runOps, List.append_eq]
    rw [ih]
    simp [List.append_assoc]

/-- Helper: `stop_test` is a status no-op on terminal or stopping states, so a
run of consecutive stop calls from such a state writes nothing. -/
theorem runOps_stop_noop (s : Status)
    (h : s ∈ TERMINAL_STATUSES ∨ s = Status.stopping) (n : ℕ) :
    runOps s (List.replicate n LifecycleOp.stopOp) = (s, []) := by
  induction n with
  | zero => rfl
  | succ n ih =>
    rw [List.replicate_succ]
    simp only [runOps, opWrites]
    rw [if_pos h]
    simp only [applyWrites]
    rw [ih]
    rfl

/-- Helper: a replicated stop either does nothing (`n = 0`) or behaves as a
single stop (further stops are no-ops once the state is `stopped`). -/
theorem runOps_stop_replicate (s : Status) (n : ℕ)
    (h : ¬(s ∈ TERMINAL_STATUSES ∨ s = Status.stopping)) :
    runOps s (List.replicate (n + 1) LifecycleOp.stopOp) =
      (Status.stopped, [(s, Status.stopping), (Status.stopping, Status.stopped)]) := by
  rw [List.replicate_succ]
  simp only [runOps, opWrites]
  rw [if_neg h]
  simp only [applyWrites]
  rw [runOps_stop_noop Status.stopped (Or.inl (by decide)) n]
  simp

/-- Helper: the entry write of `execute_test` from any status. -/
theorem runOps_begin (s : Status) :
    runOps s [LifecycleOp.beginExec] = (Status.running, [(s, Status.running)]) := by
  simp [runOps, opWrites, applyWrites]

/-- Helper: the finalization write from `running` (no stop requested). -/
theorem runOps_finish_running (f : Bool) :
    runOps Status.running [LifecycleOp.finishExec f] =
      (if f then Status.failed else Status.completed,
        [(Status.running, if f then Status.failed else Status.completed)]) := by
  cases f <;> decide

/-- Helper: the finalization write from `stopped` (stop completed mid-run). -/
theorem runOps_finish_stopped (f : Bool) :
    runOps Status.stopped [LifecycleOp.finishExec f] =
      (Status.stopped, [(Status.stopped, Status.stopped)]) := by
  cases f <;> decide

/-- C4 amended: every status write of the lifecycle operations — `execute_test`
(entry write and finalization) interleaved with any number of `stop_test`
calls, started from `pending` — follows the claimed edges
`pending → running → {completed, failed, stopping}`, `stopping → stopped`,
*plus* three edges the claim omits: `pending → stopping` (stop before the
dispatch task starts), `stopped → running` (`execute_test` begins
unconditionally after an early stop completed), and the terminal self-loop
`stopped → stopped` (finalization re-writes `stopped` after a mid-run stop). -/
theorem lifecycle_edges_characterization (n1 n2 n3 : ℕ) (f : Bool)
    (e : Status × Status)
    (he : e ∈ (runOps Status.pending (lifecycleTrace n1 n2 n3 f)).2) :
    e ∈ actualEdges := by
  unfold lifecycleTrace at he
  rw [List.append_assoc, List.append_assoc, List.append_assoc] at he
  cases f <;> rcases n1 with _ | m1 <;> rcases n2 with _ | m2 <;>
  · try simp only [List.replicate_zero, List.nil_append] at he
    simp only [runOps_append, runOps_begin,
      runOps_stop_replicate Status.pending _ (by decide),
      runOps_stop_replicate Status.running _ (by decide),
      runOps_finish_running, runOps_finish_stopped,
      runOps_stop_noop Status.completed (Or.inl (by decide)),
      runOps_stop_noop Status.failed (Or.inl (by decide)),
      runOps_stop_noop Status.stopped (Or.inl (by decide)),
      if_true, if_false, Bool.false_eq_true, List.append_nil, List.nil_append,
      List.mem_append, List.mem_singleton, List.mem_cons,
      List.not_mem_nil, or_false, false_or] at he
    try simp only [or_assoc] at he
    repeat' rcases he with rfl | he
    all_goals decide

/-- C4 witness: the normal completion path produces only allowed edges. -/
theorem lifecycle_edges_characterization_witness :
    (Status.pending, Status.running) ∈ actualEdges :=
  lifecycle_edges_characterization 0 0 0 false (Status.pending, Status.running)
    (by decide)

/-! ## C5 — step distribution get_rate -/

/-- C5 counterexample: a step distribution initialized with an *empty* steps
list returns `max(0, target_rps)` — here `7` — not `default_rps = 5` as the
claim states. -/
theorem step_empty_steps_counterexample :
    stepGetRate stepEmptyState 0 7 = 7 ∧ stepSpecRate stepEmptyState 0 = 5 ∧
      (7 : ℚ) ≠ 5 := by
  refine ⟨rfl, rfl, ?_⟩
  decide

/-- Helper: on a list whose times are non-decreasing — which `initialize`
guarantees by sorting — the break-on-first-future-step scan computes exactly
"the rate of the last step with time ≤ t, else the running default". -/
theorem stepScan_eq_lastD (t : ℚ) (l : List (ℚ × ℚ)) (d : ℚ)
    (hsorted : l.Pairwise (fun p q => p.1 ≤ q.1)) :
    stepScan t d l = ((l.filter (fun p => p.1 ≤ t)).map (fun p => p.2)).getLastD d := by
  induction l generalizing d with
  | nil => rfl
  | cons a rest ih =>
    rcases List.pairwise_cons.mp hsorted with ⟨ha, hrest⟩
    by_cases hat : a.1 ≤ t
    · have : stepScan t d (a :: rest) = stepScan t a.2 rest := by
        rcases a with ⟨x, y⟩
        simp [stepScan, hat]
      rw [this, List.filter_cons_of_pos (by simpa using hat), List.map_cons,
        List.getLastD_cons, ih _ hrest]
    · have hnil : rest.filter (fun p => p.1 ≤ t) = [] := by
        rw [List.filter_eq_nil_iff]
        intro p hp
        simp only [decide_eq_true_eq]
        exact fun hpt => hat (le_trans (ha p hp) hpt)
      have : stepScan t d (a :: rest) = d := by
        rcases a with ⟨x, y⟩
        simp [stepScan, hat]
      rw [this, List.filter_cons_of_neg (by simpa using hat), hnil]
      rfl

/-- C5 amended: for an initialized step distribution without parse errors,
`get_rate` returns `max(0, rate of the last step with time ≤ t, else
default_rps)` when the steps list is non-empty (its times are sorted by
`initialize`), and falls back to `max(0, target_rps)` — not `default_rps` —
when the steps list is empty. -/
theorem step_get_rate_characterization (st : StepStateM) (t r : ℚ)
    (hperr : st.parse_error = false) :
    (st.steps = [] → stepGetRate st t r = max 0 r) ∧
      (st.steps.Pairwise (fun p q => p.1 ≤ q.1) → st.steps ≠ [] →
        stepGetRate st t r = max 0 (stepSpecRate st t)) := by
  constructor
  · intro hnil
    simp [stepGetRate, hperr, hnil]
  · intro hsorted hne
    unfold stepGetRate stepSpecRate
    rw [hperr, if_neg (by simp), if_neg hne,
      stepScan_eq_lastD t st.steps st.default_rps hsorted]

/-- C5 witness: at a one-step state both branches of the characterization
evaluate as stated. -/
theorem step_get_rate_characterization_witness :
    stepGetRate stepEmptyState 1 2 = max 0 2 ∧
      stepGetRate { steps := [(0, 3)], default_rps := 5, parse_error := false } 1 2 =
        max 0 (stepSpecRate { steps := [(0, 3)], default_rps := 5, parse_error := false } 1) :=
  ⟨(step_get_rate_characterization stepEmptyState 1 2 rfl).1 rfl,
    (step_get_rate_characterization _ 1 2 rfl).2 (List.pairwise_singleton _ _)
      (by simp)⟩

/-! ## C6 — token bucket update -/

/-- C6: `_update_tokens` leaves the token count unchanged when
`current_rps ≤ 0` or the tick delta is `≤ 0`, and otherwise sets it to
`min(max(1, 2·current_rps), tokens + current_rps·Δ)`. -/
theorem update_tokens_spec (tk rps d : ℚ) (_htk : 0 ≤ tk) :
    (0 < rps ∧ 0 < d →
        updateTokens tk rps d = min (max 1 (2 * rps)) (tk + rps * d)) ∧
      (rps ≤ 0 ∨ d ≤ 0 → updateTokens tk rps d = tk) := by
  constructor
  · rintro ⟨h1, h2⟩
    unfold updateTokens
    rw [if_neg, mul_comm rps 2]
    push_neg
    exact ⟨h1, h2⟩
  · intro h
    unfold updateTokens
    rw [if_pos h]

/-- C6 witness. -/
theorem update_tokens_spec_witness :
    updateTokens 0 1 1 = min (max 1 (2 * 1)) (0 + 1 * 1) ∧ updateTokens 5 0 1 = 5 :=
  ⟨(update_tokens_spec 0 1 1 le_rfl).1 ⟨one_pos, one_pos⟩,
    (update_tokens_spec 5 0 1 (by norm_num)).2 (Or.inl le_rfl)⟩

/-! ## C2 — retry behaviour of the async client -/

/-- C2 counterexample: with `max_retries = 3`, a first-attempt 404 response is
*retried* — after one backoff sleep of `min(2^0, 10) = 1` second the second
attempt's 200 is returned — rather than recorded as a failure without retry
as the claim states (`_handle_error_response` branches on `response.is_error`,
which covers 4xx and 5xx alike). -/
theorem client_4xx_retry_counterexample :
    makeApiCall 3 out404then200 = (CallResult.success 200 2, [backoff 0]) ∧
      (2 : ℕ) ≠ 1 := by
  refine ⟨rfl, ?_⟩
  decide

/-- Helper: `backoffSeq a n` is the backoff schedule of attempts
`a, a+1, ..., a+n-1`. -/
theorem backoffSeq_eq_map_range (a n : ℕ) :
    backoffSeq a n = (List.range n).map (fun j => backoff (a + j)) := by
  induction n generalizing a with
  | zero => rfl
  | succ n ih =>
    rw [List.range_succ_eq_map, List.map_cons, List.map_map]
    simp only [backoffSeq, ih, Nat.add_zero]
    have hfun : (fun j => backoff (a + 1 + j)) =
        ((fun j => backoff (a + j)) ∘ Nat.succ) := by
      funext j
      simp only [Function.comp]
      exact congrArg backoff (by omega)
    rw [hfun]

/-- Helper: when every attempt from `a` on fails, the loop dispatches all
remaining attempts, sleeps `backoff` after each failed attempt except the
last, and ends with the final attempt's error. -/
theorem callLoop_all_fail (fuel : ℕ) :
    ∀ (a m : ℕ) (out : ℕ → AttemptOutcome), a + fuel = m + 1 → a ≤ m →
      (∀ i, a ≤ i → isSuccessOutcome (out i) = false) →
      callLoop m out a fuel = (finalFailure (out m) m, backoffSeq a (m - a)) := by
  induction fuel with
  | zero => intro a m out hfuel ham _; omega
  | succ fuel ih =>
    intro a m out hfuel ham hfail
    have hfa := hfail a le_rfl
    rcases ho : out a with code | _ | _ | code | _
    all_goals rw [ho] at hfa
    -- response case: the failed attempt means the response is an error
    · have herr : isErrorCode code = true := by
        simpa [isSuccessOutcome] using hfa
      by_cases ham2 : a < m
      · have hm : m - a = (m - (a + 1)) + 1 := by omega
        simp only [callLoop, attemptRequest, herr, ham2, if_true, ho]
        rw [ih (a + 1) m out (by omega) (by omega)
          (fun i hi => hfail i (by omega)), hm]
        rfl
      · have ha : a = m := by omega
        subst ha
        simp only [callLoop, attemptRequest, herr, ham2, ho, if_false]
        simp [finalFailure, herr, Nat.sub_self, backoffSeq]
    -- exception cases: always a retryable error
    all_goals
      by_cases ham2 : a < m
      · have hm : m - a = (m - (a + 1)) + 1 := by omega
        simp only [callLoop, attemptRequest, ham2, if_true, ho]
        rw [ih (a + 1) m out (by omega) (by omega)
          (fun i hi => hfail i (by omega)), hm]
        rfl
      · have ha : a = m := by omega
        subst ha
        have hfuel0 : fuel = 0 := by omega
        subst hfuel0
        simp [callLoop, attemptRequest, ham2, ho, finalFailure,
          Nat.sub_self, backoffSeq]

/-- Helper: when attempts `a, ..., a+k-1` fail and attempt `a+k ≤ m` returns
a non-error response, the loop returns that response after `a+k+1` dispatched
attempts and the backoff schedule of the failed ones. -/
theorem callLoop_success (k : ℕ) :
    ∀ (fuel a m code : ℕ) (out : ℕ → AttemptOutcome), a + fuel = m + 1 →
      a + k ≤ m →
      (∀ i, a ≤ i → i < a + k → isSuccessOutcome (out i) = false) →
      out (a + k) = AttemptOutcome.resp code → isErrorCode code = false →
      callLoop m out a fuel = (CallResult.success code (a + k + 1), backoffSeq a k) := by
  induction k with
  | zero =>
    intro fuel a m code out hfuel hk _ hout herr
    rcases fuel with _ | fuel
    · omega
    · rw [Nat.add_zero] at hout
      simp [callLoop, attemptRequest, hout, herr, backoffSeq]
  | succ k ih =>
    intro fuel a m code out hfuel hk hfail hout herr
    have hfa := hfail a le_rfl (by omega)
    have ham2 : a < m := by omega
    rcases fuel with _ | fuel
    · omega
    have hrec := ih fuel (a + 1) m code out (by omega) (by omega)
      (fun i hi1 hi2 => hfail i (by omega) (by omega))
      (by rw [show a + 1 + k = a + (k + 1) by omega]; exact hout) herr
    have hadd : a + 1 + k = a + (k + 1) := by omega
    rcases ho : out a with c | _ | _ | c | _ <;> rw [ho] at hfa
    · have herrc : isErrorCode c = true := by
        simpa [isSuccessOutcome] using hfa
      simp only [callLoop, attemptRequest, herrc, ham2, if_true, ho, hrec,
        backoffSeq, hadd]
    all_goals
      simp only [callLoop, attemptRequest, ham2, if_true, ho, hrec,
        backoffSeq, hadd]

/-- C2 amended: `make_api_call` retries *every* failed attempt — error
responses (4xx and 5xx alike, via `response.is_error`), timeouts, network
errors and other exceptions — sleeping `min(2^attempt, 10)` seconds after
each failed attempt except the last, up to `max_retries` additional attempts:
the first non-error response within `max_retries + 1` attempts is returned,
and if all attempts fail the call raises after exactly `max_retries + 1`
attempts (an `AsyncApiError` carrying the status code when the final attempt
was an error response). -/
theorem client_retry_characterization :
    (∀ (m k code : ℕ) (out : ℕ → AttemptOutcome), k ≤ m →
        (∀ i, i < k → isSuccessOutcome (out i) = false) →
        out k = AttemptOutcome.resp code → isErrorCode code = false →
        makeApiCall m out = (CallResult.success code (k + 1), (List.range k).map backoff)) ∧
      (∀ (m : ℕ) (out : ℕ → AttemptOutcome),
        (∀ i, isSuccessOutcome (out i) = false) →
        makeApiCall m out = (finalFailure (out m) m, (List.range m).map backoff)) := by
  constructor
  · intro m k code out hk hfail hout herr
    unfold makeApiCall
    rw [callLoop_success k (m + 1) 0 m code out (by omega) (by omega)
      (fun i _ hi => hfail i (by omega)) (by simpa using hout) herr]
    rw [backoffSeq_eq_map_range]
    simp
  · intro m out hfail
    unfold makeApiCall
    rw [callLoop_all_fail (m + 1) 0 m out (by omega) (by omega)
      (fun i _ => hfail i)]
    rw [backoffSeq_eq_map_range]
    simp

/-- C2 witness: an immediate 200 returns with one attempt and no sleeps, and
three straight 500s raise after all three attempts with sleeps `[1, 2]`. -/
theorem client_retry_characterization_witness :
    makeApiCall 1 (fun _ => AttemptOutcome.resp 200) =
        (CallResult.success 200 1, []) ∧
      makeApiCall 2 (fun _ => AttemptOutcome.resp 500) =
        (finalFailure (AttemptOutcome.resp 500) 2, (List.range 2).map backoff) :=
  ⟨by
    have := client_retry_characterization.1 1 0 200 (fun _ => AttemptOutcome.resp 200)
      (by decide) (fun i hi => absurd hi (Nat.not_lt_zero i)) rfl (by decide)
    simpa using this,
   client_retry_characterization.2 2 (fun _ => AttemptOutcome.resp 500)
      (fun _ => rfl)⟩

/-! ## C8 — mix validation error reporting -/

/-- C8: the composite validation helper applied to a mix config whose single
component is `{weight: -1, distribution: {name: constant, config: {}}}`
returns — without raising — exactly the one path-qualified error
`"components[0].weight must be > 0"`; the top-level
`validate_distribution_config("mix", ...)` call returns the same list. -/
theorem mix_validation_single_error :
    validateMixConfigFn mixClaimConfig =
        Except.ok ["components[0].weight must be > 0"] ∧
      validateDistributionConfigFn "mix" mixClaimConfig =
        Except.ok ["components[0].weight must be > 0"] := by
  constructor <;> rfl

/-! ## C3 — non-negativity of get_rate -/

/-- C3 counterexample: a sine evaluator initialized with the malformed (but
`initialize`-accepted) `amplitude = 2` returns a *negative* rate at
`t = 3 ≥ 0`, `r = 1 ≥ 0`: `get_rate` applies no clamping
(`1·(1 + 2·sin(3π/2)) = -1`). -/
theorem sine_unvalidated_negative_rate :
    (0 : ℝ) ≤ 3 ∧ (0 : ℝ) ≤ 1 ∧ sineGetRate sineCounterexampleState 3 1 < 0 := by
  refine ⟨by norm_num, by norm_num, ?_⟩
  unfold sineGetRate sineCounterexampleState sineBase
  rw [if_neg (by norm_num)]
  simp only [one_ne_zero, if_false]
  have hangle : 2 * Real.pi * (3 + 0) / 4 = Real.pi + Real.pi / 2 := by ring
  rw [hangle, Real.sin_add, Real.sin_pi, Real.cos_pi, Real.sin_pi_div_two,
    Real.cos_pi_div_two]
  norm_num

/-- C3 amended: for the two cited evaluators the bound holds on the
*validated* domain — a sine evaluator whose state passes `validate`
(in particular `0 < amplitude ≤ 1`) returns a non-negative rate for all
`t ≥ 0`, `r ≥ 0`, and a linear evaluator does so for every initialized state;
but malformed sine configurations are not clamped (see the counterexample). -/
theorem validated_rate_nonneg :
    (∀ st : SineStateM, sineValidate st → ∀ t r : ℝ, 0 ≤ t → 0 ≤ r →
        0 ≤ sineGetRate st t r) ∧
      (∀ (st : LinearStateM) (t r : ℝ), 0 ≤ t → 0 ≤ r →
        0 ≤ linearGetRate st t r) := by
  constructor
  · rintro st ⟨_, hper, ⟨ha0, ha1⟩, _, hbase⟩ t r _ hr
    unfold sineGetRate
    rw [if_neg (not_le.mpr hper)]
    have hb : 0 ≤ sineBase st.base_rps r := by
      unfold sineBase
      cases hob : st.base_rps with
      | none => exact hr
      | some b =>
        show 0 ≤ if b = 0 then r else b
        by_cases hb0 : b = 0
        · rw [if_pos hb0]; exact hr
        · rw [if_neg hb0]; exact le_of_lt (hbase b hob)
    have hsin : -1 ≤ Real.sin (2 * Real.pi * (t + st.phase_shift) / st.period) :=
      Real.neg_one_le_sin _
    have hfac : 0 ≤ 1 + st.amplitude *
        Real.sin (2 * Real.pi * (t + st.phase_shift) / st.period) := by
      nlinarith
    exact mul_nonneg hb hfac
  · intro st t r ht hr
    unfold linearGetRate
    by_cases h1 : st.ramp_duration ≤ 0
    · rw [if_pos h1]; exact hr
    · rw [if_neg h1]
      by_cases h2 : st.ramp_duration ≤ t
      · rw [if_pos h2]; exact hr
      · rw [if_neg h2]
        exact mul_nonneg (div_nonneg ht (le_of_lt (not_le.mp h1))) hr

/-- C3 witness: the amended bound at a concrete validated sine state and a
concrete linear state. -/
theorem validated_rate_nonneg_witness :
    0 ≤ sineGetRate ⟨1, 1, 0, none, false⟩ 0 0 ∧
      0 ≤ linearGetRate ⟨60, false⟩ 0 0 :=
  ⟨validated_rate_nonneg.1 ⟨1, 1, 0, none, false⟩
      ⟨rfl, zero_lt_one, ⟨zero_lt_one, le_refl 1⟩, le_refl 0,
        fun _ h => Option.noConfusion h⟩ 0 0 (le_refl 0) (le_refl 0),
    validated_rate_nonneg.2 ⟨60, false⟩ 0 0 (le_refl 0) (le_refl 0)⟩

/-! ## C7 — sequence repeat periodicity -/

/-- Helper: Python float `%` with a positive modulus is periodic in its first
argument. -/
theorem pymod_add_right (t T : ℝ) (hT : T ≠ 0) : pymod (t + T) T = pymod t T := by
  unfold pymod
  have hdiv : (t + T) / T = t / T + 1 := by field_simp
  rw [hdiv, Int.floor_add_one]
  push_cast
  ring

/-- C7: a validly initialized sequence distribution with
`post_behavior = repeat` (deterministic child evaluators, the functional
model) and total stage duration `T > 0` satisfies
`get_rate(t + T, r) = get_rate(t, r)` for all `t ≥ 0`, `r ≥ 0`. -/
theorem sequence_repeat_periodic (st : SeqStateM) (t r : ℝ)
    (hpost : st.post_behavior = "repeat") (hperr : st.parse_error = false)
    (hplugins : st.plugins ≠ [])
    (_htotal : st.total = st.durations.foldl (· + ·) 0)
    (htpos : 0 < st.total) (_ht : 0 ≤ t) (_hr : 0 ≤ r) :
    seqGetRate st (t + st.total) r = seqGetRate st t r := by
  have hcond : (st.parse_error || st.plugins.isEmpty) = false := by
    rw [hperr]
    simpa [List.isEmpty_iff] using hplugins
  have hnle : ¬st.total ≤ 0 := not_le.mpr htpos
  have hbeh : ∀ u : ℝ, elapsedForBehavior st u r = some (pymod u st.total, r) := by
    intro u
    unfold elapsedForBehavior
    rw [hpost]
    simp
  unfold seqGetRate
  rw [hcond]
  simp only [Bool.false_eq_true, if_false]
  rw [if_neg hnle, if_neg hnle, hbeh, hbeh,
    pymod_add_right t st.total (ne_of_gt htpos)]

/-- C7 witness: the two-stage constant sequence at `t = 5`, `T = 20`. -/
theorem sequence_repeat_periodic_witness :
    seqGetRate seqRepeatExample (5 + seqRepeatExample.total) 7 =
      seqGetRate seqRepeatExample 5 7 :=
  sequence_repeat_periodic seqRepeatExample 5 7 rfl rfl
    (List.cons_ne_nil _ _) (by norm_num [seqRepeatExample, List.foldl])
    (by norm_num [seqRepeatExample]) (by norm_num) (by norm_num)

/-! ## C9 — stop_test totality and idempotence -/

/-- C9: `stop_test` returns `False` exactly when the test id is absent from
the store; on a state already `stopping` or terminal it returns `True`,
pushes no broadcast and leaves the state (status, metrics, `end_time`,
in-flight counter) unchanged; and a second call after any successful call is
such a no-op, so the operation is idempotent. -/
theorem stop_test_spec (st : Option RunStateM) (now : ℕ) :
    ((stopTest st now).result = false ↔ st = none) ∧
      (∀ s, st = some s →
        s.status = Status.stopping ∨ s.status ∈ TERMINAL_STATUSES →
          stopTest st now = ⟨true, some s, false⟩) ∧
      (∀ now2, st ≠ none →
        stopTest (stopTest st now).store now2 =
          ⟨true, (stopTest st now).store, false⟩) := by
  refine ⟨?_, ?_, ?_⟩
  · cases st with
    | none => simp [stopTest]
    | some s =>
      unfold stopTest
      by_cases h : s.status ∈ TERMINAL_STATUSES ∨ s.status = Status.stopping <;>
        simp [h]
  · rintro s rfl h
    have h2 : s.status ∈ TERMINAL_STATUSES ∨ s.status = Status.stopping :=
      h.elim (fun h => Or.inr h) (fun h => Or.inl h)
    simp only [stopTest]
    rw [if_pos h2]
  · intro now2 hne
    cases st with
    | none => exact absurd rfl hne
    | some s =>
      by_cases h : s.status ∈ TERMINAL_STATUSES ∨ s.status = Status.stopping
      · simp only [stopTest]
        rw [if_pos h]
        simp only [stopTest]
        rw [if_pos h]
      · simp only [stopTest]
        rw [if_neg h]
        simp only [stopTest]
        rw [if_pos]
        simp [TERMINAL_STATUSES]

/-- C9 witness: a completed state is returned unchanged with no broadcast. -/
theorem stop_test_spec_witness :
    stopTest (some completedStateW) 0 = ⟨true, some completedStateW, false⟩ :=
  (stop_test_spec (some completedStateW) 0).2.1 _ rfl (Or.inr (by decide))

/-! ## C10 — broadcast payload active-users field -/

/-- C10: `format_metrics` reports `active_users_estimate = 0` for every
terminal-status state regardless of the stored metric, and reports
`configured_users` for a subprocess-backed running state whose stored
estimate is 0. -/
theorem format_metrics_active_users (s : RunStateM) :
    (s.status ∈ TERMINAL_STATUSES →
        (formatMetrics s).active_users_estimate = 0) ∧
      (s.process.isSome = true → s.status = Status.running →
        s.metrics.active_users_estimate = 0 →
          (formatMetrics s).active_users_estimate = configuredUsers s ∧
            (formatMetrics s).configured_users = configuredUsers s) := by
  constructor
  · intro h
    simp [formatMetrics, h]
  · intro hp hs hm
    simp [formatMetrics, hp, hs, hm, TERMINAL_STATUSES]

/-- C10 witness: a terminal state with a stale stored estimate reports 0, and
a running subprocess-backed state with stored estimate 0 reports the
configured user count. -/
theorem format_metrics_active_users_witness :
    (formatMetrics failedStaleState).active_users_estimate = 0 ∧
      (formatMetrics runningProcState).active_users_estimate =
        configuredUsers runningProcState :=
  ⟨(format_metrics_active_users failedStaleState).1 (by decide),
    ((format_metrics_active_users runningProcState).2 rfl rfl rfl).1⟩

end Primes
